import Mathlib

/-!
Shallow embedding of the `playwright-url-checker` repository
(`src/check-urls.ts` and `src/status-detector.ts`) and proofs about it.

Strings are modelled as Lean `String`s; JavaScript string operations
(`trim`, `includes`, `toLowerCase`, the anchored scheme regex and the
error-page regexes, restricted to ASCII inputs) are given explicit
executable definitions below so every property can be proved from
first principles and evaluated on concrete inputs.
-/

namespace UrlChecker

/-- ASCII whitespace, the characters stripped by JavaScript `String.prototype.trim`
on ASCII input and matched by the regex class `\s`. -/
def isWsCh (c : Char) : Bool :=
  c = ' ' || c = '\t' || c = '\n' || c = '\r' || c = '\x0b' || c = '\x0c'

/-- `prefOf n l` is true when the character list `n` is a prefix of `l`. -/
def prefOf : List Char → List Char → Bool
  | [], _ => true
  | _ :: _, [] => false
  | a :: as, b :: bs => a = b && prefOf as bs

/-- `subOf n l` is true when `n` occurs contiguously inside `l`
(JavaScript `String.prototype.includes` on character lists). -/
def subOf (needle : List Char) : List Char → Bool
  | [] => prefOf needle []
  | c :: rest => prefOf needle (c :: rest) || subOf needle rest

/-- JavaScript `hay.includes(needle)`. -/
def includesStr (hay needle : String) : Bool :=
  subOf needle.data hay.data

/-- JavaScript `s.startsWith(p)` shape used in statements below. -/
def startsWithStr (s p : String) : Bool :=
  prefOf p.data s.data

/-- JavaScript `String.prototype.toLowerCase` on ASCII input. -/
def toLowerStr (s : String) : String :=
  ⟨s.data.map Char.toLower⟩

/-- JavaScript `String.prototype.trim` on ASCII input. -/
def jsTrim (s : String) : String :=
  ⟨((s.data.dropWhile isWsCh).reverse.dropWhile isWsCh).reverse⟩

/-- Removes leading `'/'` characters from a character list. -/
def dropSlashes : List Char → List Char
  | '/' :: rest => dropSlashes rest
  | l => l

/-- The regex replacement `s.replace(/^\/+|\/+$/g, '')` of `normalizeUrl`:
removes leading and trailing slashes. -/
def stripSlashes (s : String) : String :=
  ⟨((dropSlashes s.data).reverse |> dropSlashes).reverse⟩

/-- The test `/^https?:\/\//i.test(s)` from `normalizeUrl`: `s` starts,
case-insensitively, with `http://` or `https://`. -/
def hasHttpScheme (s : String) : Bool :=
  startsWithStr (toLowerStr s) "http://" || startsWithStr (toLowerStr s) "https://"

/-- `normalizeUrl` from `src/check-urls.ts` (lines 31-46).  Throwing
`new Error('Empty domain')` is modelled as `Except.error`. -/
def normalizeUrl (domain : String) : Except String String :=
  let d1 := jsTrim domain
  if d1 = "" then
    .error "Empty domain"
  else
    let d2 := stripSlashes (jsTrim d1)
    let d3 := if hasHttpScheme d2 then d2 else "https://" ++ d2
    .ok d3

/-- The `WebsiteStatus` union from `src/status-detector.ts`:
`'5xx' | '404' | 'Parked' | 'Broken' | 'ok' | 'Other'`. -/
inductive WebsiteStatus where
  | s5xx
  | notFound404
  | parked
  | broken
  | ok
  | other
deriving DecidableEq, Repr

/-- A rendered document as observed by the detector: the values produced by
`page.textContent('body')`, `page.title()`, the `querySelectorAll('*').length`
evaluation and the text-node-walker evaluation. -/
structure RenderedDoc where
  bodyText : String
  title : String
  elementCount : Nat
  visibleText : String
deriving DecidableEq, Repr

/-- The `parkedIndicators` array of `isParkedPage` (`src/status-detector.ts`). -/
def parkedIndicators : List String :=
  ["parked", "domain for sale", "this domain may be for sale", "buy this domain",
   "domain name registration", "domain parking", "this domain is parked", "hosting",
   "coming soon", "under construction", "domain is available", "register this domain",
   "godaddy", "namecheap", "sedo", "dan.com", "afternic", "hugedomains",
   "parking page", "domain parking service", "this page is parked"]

/-- The `hostingProviders` array of `isParkedPage` (`src/status-detector.ts`). -/
def hostingProviders : List String :=
  ["cpanel", "plesk", "default page", "apache", "nginx", "welcome to",
   "it works!", "test page"]

/-- `isParkedPage` from `src/status-detector.ts` (lines 13-104), as a pure
function of the rendered document. -/
def isParkedPage (d : RenderedDoc) : Bool :=
  let bodyTextLower := toLowerStr d.bodyText
  let titleLower := toLowerStr d.title
  let textLength := (jsTrim d.bodyText).length
  if textLength < 100 then
    true
  else if parkedIndicators.any
      (fun ind => includesStr titleLower ind || includesStr bodyTextLower ind) then
    true
  else if hostingProviders.any
      (fun p => includesStr titleLower p || includesStr bodyTextLower p) then
    true
  else if d.visibleText.length < 50 then
    true
  else
    false

/-- The `brokenIndicators` array of `isBrokenPage` (`src/status-detector.ts`). -/
def brokenIndicators : List String :=
  ["under construction", "coming soon", "site under maintenance", "maintenance mode",
   "temporarily unavailable", "we are working on", "this site is being rebuilt",
   "page not found", "error occurred", "something went wrong", "internal server error",
   "database error", "connection error", "fatal error", "parse error", "syntax error"]

/-- `c` is an ASCII digit, the regex class `\d`. -/
def isDigitCh (c : Char) : Bool :=
  '0' ≤ c && c ≤ '9'

/-- `p` holds somewhere after consuming one or more `\s` characters
(with full backtracking, as a regex `\s+` does). -/
def afterWsPlus (p : List Char → Bool) : List Char → Bool
  | [] => false
  | c :: rest => isWsCh c && (p rest || afterWsPlus p rest)

/-- `p` holds at some suffix of the list (an unanchored regex match position). -/
def anySuffixHolds (p : List Char → Bool) : List Char → Bool
  | [] => p []
  | c :: rest => p (c :: rest) || anySuffixHolds p rest

/-- The list starts with three ASCII digits, the regex `\d{3}` at a position. -/
def threeDigitsAt : List Char → Bool
  | a :: b :: c :: _ => isDigitCh a && isDigitCh b && isDigitCh c
  | _ => false

/-- An unanchored case-insensitive match of `w1` + `\s+` + continuation `k`,
on the lower-cased character list `l`. -/
def matchWordWsThen (w1 : String) (k : List Char → Bool) (l : List Char) : Bool :=
  anySuffixHolds
    (fun suf => prefOf w1.data suf && afterWsPlus k (suf.drop w1.data.length)) l

/-- The `errorPatterns` regex list of `isBrokenPage`:
`/error\s+\d{3}/i`, `/http\s+error/i`, `/server\s+error/i`,
`/application\s+error/i`, tested against the string `s`. -/
def matchesErrorPattern (s : String) : Bool :=
  let l := (toLowerStr s).data
  matchWordWsThen "error" threeDigitsAt l ||
  matchWordWsThen "http" (fun r => prefOf "error".data r) l ||
  matchWordWsThen "server" (fun r => prefOf "error".data r) l ||
  matchWordWsThen "application" (fun r => prefOf "error".data r) l

/-- `isBrokenPage` from `src/status-detector.ts` (lines 109-170), as a pure
function of the rendered document. -/
def isBrokenPage (d : RenderedDoc) : Bool :=
  let bodyTextLower := toLowerStr d.bodyText
  let titleLower := toLowerStr d.title
  if brokenIndicators.any
      (fun ind => includesStr titleLower ind || includesStr bodyTextLower ind) then
    true
  else if matchesErrorPattern d.bodyText || matchesErrorPattern d.title then
    true
  else if d.elementCount < 10 && (jsTrim d.bodyText).length < 200 then
    true
  else
    false

/-- The outcome of inspecting the loaded page during classification: either a
well-defined rendered document, or an uncaught fault (caught by the
`try/catch` at the bottom of `detectStatus`). -/
inductive Inspect where
  | page (d : RenderedDoc)
  | fault (msg : String)
deriving DecidableEq, Repr

/-- The `StatusResult` record of `src/status-detector.ts`. -/
structure StatusResult where
  status : WebsiteStatus
  notes : Option String
deriving DecidableEq, Repr

/-- The content-analysis tail of `detectStatus` (`src/status-detector.ts`
lines 204-238): parked check, then broken check, then the 2xx check, with the
surrounding `try/catch` mapping an analysis fault to `Other`. -/
def analyzePage (response : Option Nat) (insp : Inspect) : StatusResult :=
  match insp with
  | .fault msg => ⟨.other, some ("Analysis error: " ++ msg)⟩
  | .page d =>
    if isParkedPage d then
      ⟨.parked, some "Parked domain detected"⟩
    else if isBrokenPage d then
      ⟨.broken, some "Broken/under construction detected"⟩
    else if (match response with
             | some s => decide (200 ≤ s ∧ s < 300)
             | none => false) then
      ⟨.ok, some "Website loads fine"⟩
    else
      ⟨.ok, some "Website appears to load"⟩

/-- `detectStatus` from `src/status-detector.ts` (lines 175-239): the HTTP
status code checks, then the content analysis of `analyzePage`. -/
def detectStatus (response : Option Nat) (insp : Inspect) : StatusResult :=
  match response with
  | some s =>
    if 500 ≤ s ∧ s < 600 then
      ⟨.s5xx, some ("HTTP " ++ toString s)⟩
    else if s = 404 then
      ⟨.notFound404, some "HTTP 404"⟩
    else if 400 ≤ s ∧ s < 500 ∧ s ≠ 404 then
      ⟨.broken, some ("HTTP " ++ toString s)⟩
    else
      analyzePage response insp
  | none => analyzePage response insp

/-- The `CheckResult` record of `src/check-urls.ts`. -/
structure CheckResult where
  domain : String
  status : WebsiteStatus
  notes : Option String
  err : Option String
deriving DecidableEq, Repr

/-- One attempt's interaction with the rendering engine: `page.goto` either
returns a response (with an HTTP status code), returns `null`, or throws. -/
inductive AttemptOutcome where
  | nav (response : Option Nat) (insp : Inspect)
  | thrown (msg : String)
deriving DecidableEq, Repr

/-- The retryability test of `checkUrl`'s `catch` block: the error message
contains `'timeout'`, `'net::'`, `'Navigation timeout'` or `'ERR_'`. -/
def isRetryableMsg (msg : String) : Bool :=
  includesStr msg "timeout" || includesStr msg "net::" ||
  includesStr msg "Navigation timeout" || includesStr msg "ERR_"

/-- The backoff sleep of `checkUrl`: `Math.pow(2, attempt - 1) * 1000`
milliseconds, performed on entry to every attempt with `attempt > 0`. -/
def backoffDelayMs (attempt : Nat) : Nat :=
  2 ^ (attempt - 1) * 1000

/-- The result of a whole `checkUrl` run, instrumented with the number of loop
iterations entered and the list of backoff delays slept (in milliseconds). -/
structure RunResult where
  result : CheckResult
  attemptsMade : Nat
  delays : List Nat
deriving DecidableEq, Repr

/-- The retry loop of `checkUrl` (`src/check-urls.ts` lines 59-184).  `fuel`
is the number of remaining loop iterations, kept equal to
`maxRetries + 1 - attempt`, so `fuel = 0` is exactly the loop exit
`attempt > maxRetries`; `attempts` gives the rendering engine's behaviour on
each attempt; `made` and `delays` instrument iterations and backoff sleeps. -/
def checkUrlGo (url : String) (maxRetries : Nat) (attempts : Nat → AttemptOutcome) :
    Nat → Nat → Option String → Nat → List Nat → RunResult
  | 0, _, lastError, made, delays =>
    ⟨⟨url, .s5xx,
      some ("Failed after " ++ toString (maxRetries + 1) ++ " attempts: " ++
            lastError.getD "Unknown error"),
      lastError⟩, made, delays⟩
  | fuel + 1, attempt, _lastError, made, delays =>
    let delays1 := if 0 < attempt then delays ++ [backoffDelayMs attempt] else delays
    let made1 := made + 1
    match attempts attempt with
    | .nav (some status) insp =>
      if 500 ≤ status ∧ status < 600 ∧ attempt < maxRetries then
        checkUrlGo url maxRetries attempts fuel (attempt + 1)
          (some ("HTTP " ++ toString status)) made1 delays1
      else if status = 404 then
        let r := detectStatus (some status) insp
        ⟨⟨url, r.status, r.notes, none⟩, made1, delays1⟩
      else
        let r := detectStatus (some status) insp
        if 500 ≤ status ∧ status < 600 then
          ⟨⟨url, .s5xx,
            some ("HTTP " ++ toString status ++ " after " ++
                  toString (attempt + 1) ++ " attempts"),
            none⟩, made1, delays1⟩
        else
          ⟨⟨url, r.status, r.notes, none⟩, made1, delays1⟩
    | .nav none insp =>
      let r := detectStatus none insp
      ⟨⟨url, r.status, some (r.notes.getD "No HTTP response received"), none⟩,
       made1, delays1⟩
    | .thrown msg =>
      if isRetryableMsg msg = true ∧ attempt < maxRetries then
        checkUrlGo url maxRetries attempts fuel (attempt + 1) (some msg) made1 delays1
      else if attempt = maxRetries then
        if isRetryableMsg msg then
          ⟨⟨url, .s5xx,
            some ("Network error/timeout after " ++ toString (attempt + 1) ++
                  " attempts: " ++ msg),
            some msg⟩, made1, delays1⟩
        else
          ⟨⟨url, .other, some ("Error: " ++ msg), some msg⟩, made1, delays1⟩
      else
        checkUrlGo url maxRetries attempts fuel (attempt + 1) (some msg) made1 delays1

/-- `checkUrl` from `src/check-urls.ts` (lines 51-193), instrumented run. -/
def checkUrlRun (url : String) (attempts : Nat → AttemptOutcome)
    (maxRetries : Nat) : RunResult :=
  checkUrlGo url maxRetries attempts (maxRetries + 1) 0 none 0 []

/-- The `CheckResult` returned by `checkUrl`. -/
def checkUrl (url : String) (attempts : Nat → AttemptOutcome)
    (maxRetries : Nat) : CheckResult :=
  (checkUrlRun url attempts maxRetries).result

/-- The per-row accumulation step of `readUrlsFromCsv`
(`src/check-urls.ts` lines 205-218): skip blank cells, skip cells
`normalizeUrl` rejects, and append a normalized URL only when it has not been
seen before. -/
def readUrlsStep (urls : List String) (domain : String) : List String :=
  if jsTrim domain ≠ "" then
    match normalizeUrl domain with
    | .ok n => if n ∈ urls then urls else urls ++ [n]
    | .error _ => urls
  else
    urls

/-- `readUrlsFromCsv` from `src/check-urls.ts` (lines 198-227), over the list
of raw domain cells extracted from the CSV rows. -/
def readUrlsFromCsv (rows : List String) : List String :=
  rows.foldl readUrlsStep []

/-- The normalized URL a CSV row contributes, if any. -/
def rowNormalized (domain : String) : Option String :=
  if jsTrim domain ≠ "" then (normalizeUrl domain).toOption else none

/-- First-occurrence deduplication of a list, keeping order. -/
def dedupKeepFirst : List String → List String
  | [] => []
  | x :: xs => x :: (dedupKeepFirst xs).filter (fun y => y ≠ x)

/-- An attempt that fails with a retryable fault: a navigation error whose
message passes `isRetryableMsg`, or a response with a 5xx status code. -/
def retryableFail (o : AttemptOutcome) : Prop :=
  match o with
  | .nav (some s) _ => 500 ≤ s ∧ s < 600
  | .nav none _ => False
  | .thrown msg => isRetryableMsg msg = true

instance : DecidablePred retryableFail := fun o =>
  match o with
  | .nav (some s) _ => inferInstanceAs (Decidable (500 ≤ s ∧ s < 600))
  | .nav none _ => inferInstanceAs (Decidable False)
  | .thrown msg => inferInstanceAs (Decidable (isRetryableMsg msg = true))

/-- The response carries no error-range status code: it is absent, or its
status lies outside `[400, 600)` (neither 4xx nor 5xx). -/
def noErrorStatus (response : Option Nat) : Prop :=
  match response with
  | none => True
  | some s => s < 400 ∨ 600 ≤ s

instance : DecidablePred noErrorStatus := fun r =>
  match r with
  | none => inferInstanceAs (Decidable True)
  | some s => inferInstanceAs (Decidable (s < 400 ∨ 600 ≤ s))

/-- A structurally empty rendered document: no body text, no elements. -/
def emptyDoc : RenderedDoc := ⟨"", "", 0, ""⟩

/-- A 50-character line of product-listing text. -/
def productLine : String := "Great product listing with prices, reviews, cart. "

/-- A 2000-character product-listing body: 40 copies of `productLine`. -/
def bigBody : String := ⟨(List.replicate 40 productLine.data).flatten⟩

/-- A substantial product-listing document with a 2000-character body and 40
DOM elements, as served behind an HTTP 403 bot block. -/
def bigDoc403 : RenderedDoc :=
  ⟨bigBody, "Product Catalog", 40, bigBody⟩

/-- A document whose body offers the domain for sale and also matches the
Broken-test phrase `under construction`. -/
def forSaleDoc : RenderedDoc :=
  ⟨"This domain for sale. The site is also under construction right now.",
   "Sale", 8, ""⟩

theorem prefOf_refl (l : List Char) : prefOf l l = true := by
  induction l with
  | nil => rfl
  | cons c cs ih => simp [prefOf, ih]

theorem prefOf_append {n h : List Char} (r : List Char) (hp : prefOf n h = true) :
    prefOf n (h ++ r) = true := by
  induction n generalizing h with
  | nil => rfl
  | cons a as ih =>
    cases h with
    | nil => simp [prefOf] at hp
    | cons b bs =>
      simp only [prefOf, Bool.and_eq_true, decide_eq_true_eq] at hp
      simp only [List.cons_append, prefOf, Bool.and_eq_true, decide_eq_true_eq]
      exact ⟨hp.1, ih hp.2⟩

theorem subOf_of_prefOf {n l : List Char} (hp : prefOf n l = true) :
    subOf n l = true := by
  cases l with
  | nil => exact hp
  | cons c cs => simp [subOf, hp]

theorem subOf_nil_needle (l : List Char) : subOf [] l = true := by
  cases l with
  | nil => rfl
  | cons c cs => simp [subOf, prefOf]

theorem subOf_append_right {n r : List Char} (h : List Char)
    (hs : subOf n r = true) : subOf n (h ++ r) = true := by
  induction h with
  | nil => simpa using hs
  | cons c cs ih =>
    simp only [List.cons_append, subOf, Bool.or_eq_true]
    exact Or.inr ih

theorem subOf_append_left {n h : List Char} (r : List Char)
    (hs : subOf n h = true) : subOf n (h ++ r) = true := by
  induction h with
  | nil =>
    cases n with
    | nil => exact subOf_nil_needle r
    | cons a as => simp [subOf, prefOf] at hs
  | cons c cs ih =>
    simp only [subOf, Bool.or_eq_true] at hs
    rcases hs with hp | hsub
    · exact subOf_of_prefOf (by simpa using prefOf_append r hp)
    · simp only [List.cons_append, subOf, Bool.or_eq_true]
      exact Or.inr (ih hsub)

theorem includesStr_append_right {b n : String} (a : String)
    (h : includesStr b n = true) : includesStr (a ++ b) n = true := by
  unfold includesStr at h ⊢
  rw [String.data_append]
  exact subOf_append_right a.data h

theorem includesStr_append_left {a n : String} (b : String)
    (h : includesStr a n = true) : includesStr (a ++ b) n = true := by
  unfold includesStr at h ⊢
  rw [String.data_append]
  exact subOf_append_left b.data h

theorem includesStr_self (s : String) : includesStr s s = true :=
  subOf_of_prefOf (prefOf_refl s.data)

theorem jsTrim_ne_empty {s : String} {c : Char} {rest : List Char}
    (hd : s.data = c :: rest) (hc : isWsCh c = false) : jsTrim s ≠ "" := by
  intro h
  have hdata : ((s.data.dropWhile isWsCh).reverse.dropWhile isWsCh).reverse = [] := by
    have : (jsTrim s).data = ("" : String).data := by rw [h]
    simpa [jsTrim] using this
  rw [List.reverse_eq_nil_iff, List.dropWhile_eq_nil_iff] at hdata
  have h1 : s.data.dropWhile isWsCh = c :: rest := by
    rw [hd, List.dropWhile_cons, hc]
    simp
  have hcmem : c ∈ (s.data.dropWhile isWsCh).reverse := by
    rw [h1, List.mem_reverse]
    exact List.mem_cons_self c rest
  have := hdata c hcmem
  rw [hc] at this
  exact Bool.false_ne_true this

theorem toLower_h_not_ws {c : Char} (h : c.toLower = 'h') : isWsCh c = false := by
  by_contra hws
  rw [Bool.not_eq_false] at hws
  have hcases : ((((c = ' ' ∨ c = '\t') ∨ c = '\n') ∨ c = '\r') ∨ c = '\x0b') ∨
      c = '\x0c' := by
    simpa [isWsCh, Bool.or_eq_true, decide_eq_true_eq] using hws
  rcases hcases with ((((h1 | h1) | h1) | h1) | h1) | h1 <;> subst h1 <;>
    exact absurd h (by decide)

theorem hasHttpScheme_head {s : String} (h : hasHttpScheme s = true) :
    ∃ c rest, s.data = c :: rest ∧ isWsCh c = false := by
  unfold hasHttpScheme startsWithStr toLowerStr at h
  rw [Bool.or_eq_true] at h
  cases hs : s.data with
  | nil =>
    rw [hs] at h
    rcases h with h | h <;> simp [prefOf] at h
  | cons c rest =>
    refine ⟨c, rest, rfl, ?_⟩
    rw [hs] at h
    have hh : c.toLower = 'h' := by
      rcases h with h | h
      · have e : ("http://" : String).data = 'h' :: "ttp://".data := rfl
        rw [e, List.map_cons] at h
        simp only [prefOf, Bool.and_eq_true, decide_eq_true_eq] at h
        exact h.1.symm
      · have e : ("https://" : String).data = 'h' :: "ttps://".data := rfl
        rw [e, List.map_cons] at h
        simp only [prefOf, Bool.and_eq_true, decide_eq_true_eq] at h
        exact h.1.symm
    exact toLower_h_not_ws hh

theorem lower_startsWith_https (s : String) :
    startsWithStr (toLowerStr ("https://" ++ s)) "https://" = true := by
  unfold startsWithStr toLowerStr
  rw [String.data_append, List.map_append]
  have h8 : List.map Char.toLower ("https://" : String).data =
      ("https://" : String).data := by decide
  rw [h8]
  exact prefOf_append _ (prefOf_refl _)

theorem hasHttpScheme_prepend (s : String) :
    hasHttpScheme ("https://" ++ s) = true := by
  unfold hasHttpScheme
  rw [lower_startsWith_https]
  simp

theorem prepend_https_head (s : String) :
    ∃ rest, ("https://" ++ s).data = 'h' :: rest := by
  refine ⟨"ttps://".data ++ s.data, ?_⟩
  rw [String.data_append]
  rfl

theorem normalizeUrl_eq_ok {s : String} (h : jsTrim s ≠ "") :
    normalizeUrl s =
      .ok (if hasHttpScheme (stripSlashes (jsTrim (jsTrim s))) = true
           then stripSlashes (jsTrim (jsTrim s))
           else "https://" ++ stripSlashes (jsTrim (jsTrim s))) := by
  simp only [normalizeUrl, if_neg h]

theorem isParkedPage_short {d : RenderedDoc}
    (h : (jsTrim d.bodyText).length < 100) : isParkedPage d = true := by
  simp only [isParkedPage, if_pos h]

theorem isParkedPage_forSale {d : RenderedDoc}
    (h : includesStr (toLowerStr d.bodyText) "domain for sale" = true) :
    isParkedPage d = true := by
  simp only [isParkedPage]
  by_cases hlen : (jsTrim d.bodyText).length < 100
  · rw [if_pos hlen]
  · rw [if_neg hlen, if_pos ?_]
    rw [List.any_eq_true]
    refine ⟨"domain for sale", by decide, ?_⟩
    rw [Bool.or_eq_true]
    exact Or.inr h

theorem analyzePage_parked {response : Option Nat} {d : RenderedDoc}
    (h : isParkedPage d = true) :
    analyzePage response (.page d) = ⟨.parked, some "Parked domain detected"⟩ := by
  simp only [analyzePage, if_pos h]

theorem analyzePage_fault (response : Option Nat) (msg : String) :
    analyzePage response (.fault msg) = ⟨.other, some ("Analysis error: " ++ msg)⟩ :=
  rfl

theorem detectStatus_noError {response : Option Nat} (insp : Inspect)
    (h : noErrorStatus response) :
    detectStatus response insp = analyzePage response insp := by
  cases response with
  | none => rfl
  | some s =>
    have h' : s < 400 ∨ 600 ≤ s := h
    simp only [detectStatus]
    rw [if_neg (by omega), if_neg (by omega), if_neg (by omega)]

theorem checkUrlRun_nav_other (url : String) (attempts : Nat → AttemptOutcome)
    (mr s : Nat) (insp : Inspect)
    (h0 : attempts 0 = .nav (some s) insp)
    (h5 : ¬ (500 ≤ s ∧ s < 600)) (h4 : s ≠ 404) :
    checkUrlRun url attempts mr =
      ⟨⟨url, (detectStatus (some s) insp).status,
        (detectStatus (some s) insp).notes, none⟩, 1, []⟩ := by
  show checkUrlGo url mr attempts (mr + 1) 0 none 0 [] = _
  simp only [checkUrlGo, h0, Nat.lt_irrefl, if_false]
  rw [if_neg (fun hh => h5 ⟨hh.1, hh.2.1⟩), if_neg h4,
    if_neg h5]

theorem checkUrlRun_nav_404 (url : String) (attempts : Nat → AttemptOutcome)
    (mr : Nat) (insp : Inspect) (h0 : attempts 0 = .nav (some 404) insp) :
    checkUrlRun url attempts mr =
      ⟨⟨url, .notFound404, some "HTTP 404", none⟩, 1, []⟩ := by
  show checkUrlGo url mr attempts (mr + 1) 0 none 0 [] = _
  simp only [checkUrlGo, h0, Nat.lt_irrefl, if_false]
  rw [if_neg (fun hh => by omega : ¬ (500 ≤ 404 ∧ 404 < 600 ∧ 0 < mr)),
    if_pos trivial]
  rfl

theorem checkUrlRun_nav_none (url : String) (attempts : Nat → AttemptOutcome)
    (mr : Nat) (insp : Inspect) (h0 : attempts 0 = .nav none insp) :
    checkUrlRun url attempts mr =
      ⟨⟨url, (detectStatus none insp).status,
        some ((detectStatus none insp).notes.getD "No HTTP response received"),
        none⟩, 1, []⟩ := by
  show checkUrlGo url mr attempts (mr + 1) 0 none 0 [] = _
  simp only [checkUrlGo, h0, Nat.lt_irrefl, if_false]

theorem checkUrlGo_step (url : String) (attempts : Nat → AttemptOutcome) (a : Nat)
    (ha : a < 3) (hr : retryableFail (attempts a))
    (fuel : Nat) (le : Option String) (made : Nat) (ds : List Nat) :
    ∃ le2, checkUrlGo url 3 attempts (fuel + 1) a le made ds =
      checkUrlGo url 3 attempts fuel (a + 1) (some le2) (made + 1)
        (if 0 < a then ds ++ [backoffDelayMs a] else ds) := by
  cases h : attempts a with
  | nav response insp =>
    cases response with
    | none => rw [h] at hr; exact absurd hr id
    | some s =>
      rw [h] at hr
      refine ⟨"HTTP " ++ toString s, ?_⟩
      simp only [checkUrlGo, h]
      rw [if_pos ⟨hr.1, hr.2, ha⟩]
  | thrown msg =>
    rw [h] at hr
    refine ⟨msg, ?_⟩
    simp only [checkUrlGo, h]
    rw [if_pos ⟨hr, ha⟩]

theorem checkUrlGo_final (url : String) (attempts : Nat → AttemptOutcome)
    (hr : retryableFail (attempts 3))
    (le : Option String) (made : Nat) (ds : List Nat) :
    ∃ note errv, checkUrlGo url 3 attempts 1 3 le made ds =
      ⟨⟨url, .s5xx, some note, errv⟩, made + 1, ds ++ [backoffDelayMs 3]⟩ ∧
      includesStr note "4" = true := by
  cases h : attempts 3 with
  | nav response insp =>
    cases response with
    | none => rw [h] at hr; exact absurd hr id
    | some s =>
      rw [h] at hr
      have hr' : 500 ≤ s ∧ s < 600 := hr
      refine ⟨"HTTP " ++ toString s ++ " after " ++ toString (3 + 1) ++ " attempts",
        none, ?_, ?_⟩
      · show checkUrlGo url 3 attempts (0 + 1) 3 le made ds = _
        simp only [checkUrlGo, h]
        rw [if_neg (fun hh => by omega : ¬ (500 ≤ s ∧ s < 600 ∧ 3 < 3)),
          if_neg (by omega : ¬ s = 404), if_pos hr']
        rfl
      · apply includesStr_append_left
        apply includesStr_append_right
        have e : toString (3 + 1) = ("4" : String) := rfl
        rw [e]
        exact includesStr_self "4"
  | thrown msg =>
    rw [h] at hr
    have hr' : isRetryableMsg msg = true := hr
    refine ⟨"Network error/timeout after " ++ toString (3 + 1) ++ " attempts: " ++ msg,
      some msg, ?_, ?_⟩
    · show checkUrlGo url 3 attempts (0 + 1) 3 le made ds = _
      simp only [checkUrlGo, h]
      rw [if_neg (fun hh => by omega : ¬ (isRetryableMsg msg = true ∧ 3 < 3)),
        if_pos trivial, if_pos hr']
      rfl
    · apply includesStr_append_left
      apply includesStr_append_left
      apply includesStr_append_right
      have e : toString (3 + 1) = ("4" : String) := rfl
      rw [e]
      exact includesStr_self "4"

theorem checkUrlGo_final500 (url : String) (attempts : Nat → AttemptOutcome)
    (insp : Inspect) (h : attempts 3 = .nav (some 500) insp)
    (le : Option String) (made : Nat) (ds : List Nat) :
    checkUrlGo url 3 attempts 1 3 le made ds =
      ⟨⟨url, .s5xx, some "HTTP 500 after 4 attempts", none⟩,
       made + 1, ds ++ [backoffDelayMs 3]⟩ := by
  show checkUrlGo url 3 attempts (0 + 1) 3 le made ds = _
  simp only [checkUrlGo, h]
  rw [if_neg (fun hh => by omega : ¬ (500 ≤ 500 ∧ 500 < 600 ∧ 3 < 3)),
    if_neg (by omega : ¬ (500 : Nat) = 404), if_pos (by omega : 500 ≤ 500 ∧ 500 < 600)]
  rfl

theorem normalizeUrl_isOk {s : String} (h : jsTrim s ≠ "") :
    ∃ n, normalizeUrl s = .ok n :=
  ⟨_, normalizeUrl_eq_ok h⟩

theorem rowNormalized_eq_some {d n : String} (hb : jsTrim d ≠ "")
    (hn : normalizeUrl d = .ok n) : rowNormalized d = some n := by
  simp only [rowNormalized, if_pos hb, hn, Except.toOption]

theorem rowNormalized_eq_none {d : String} (hb : ¬ jsTrim d ≠ "") :
    rowNormalized d = none := by
  simp only [rowNormalized, if_neg hb]

theorem foldl_readUrlsStep (rows : List String) :
    ∀ acc : List String,
      rows.foldl readUrlsStep acc =
        acc ++ (dedupKeepFirst (rows.filterMap rowNormalized)).filter
          (fun n => decide (n ∉ acc)) := by
  induction rows with
  | nil => intro acc; simp [dedupKeepFirst]
  | cons d rest ih =>
    intro acc
    by_cases hb : jsTrim d ≠ ""
    · obtain ⟨n, hn⟩ := normalizeUrl_isOk hb
      have hrow : rowNormalized d = some n := rowNormalized_eq_some hb hn
      have hstep : readUrlsStep acc d =
          if n ∈ acc then acc else acc ++ [n] := by
        simp only [readUrlsStep, if_pos hb, hn]
      rw [List.foldl_cons, List.filterMap_cons, hrow]
      simp only [dedupKeepFirst]
      by_cases hmem : n ∈ acc
      · rw [hstep, if_pos hmem, ih acc]
        congr 1
        rw [List.filter_cons_of_neg (by simpa using hmem), List.filter_filter]
        apply List.filter_congr
        intro x _
        by_cases hxa : x ∈ acc
        · simp [hxa]
        · have hxn : x ≠ n := fun he => hxa (he ▸ hmem)
          simp [hxa, hxn]
      · rw [hstep, if_neg hmem, ih (acc ++ [n])]
        rw [List.filter_cons_of_pos (by simpa using hmem)]
        rw [List.append_assoc, List.singleton_append]
        congr 2
        rw [List.filter_filter]
        apply List.filter_congr
        intro x _
        by_cases hxa : x ∈ acc <;> by_cases hxn : x = n <;>
          simp [hxa, hxn, List.mem_append]
    · have hrow : rowNormalized d = none := rowNormalized_eq_none hb
      have hstep : readUrlsStep acc d = acc := by
        simp only [readUrlsStep, if_neg hb]
      rw [List.foldl_cons, List.filterMap_cons, hrow, hstep]
      exact ih acc

theorem readUrlsFromCsv_eq_dedup (rows : List String) :
    readUrlsFromCsv rows = dedupKeepFirst (rows.filterMap rowNormalized) := by
  rw [readUrlsFromCsv, foldl_readUrlsStep rows []]
  simp

theorem dedupKeepFirst_nodup (l : List String) : (dedupKeepFirst l).Nodup := by
  induction l with
  | nil => exact List.nodup_nil
  | cons x xs ih =>
    simp only [dedupKeepFirst]
    refine List.Nodup.cons ?_ (List.Nodup.filter _ ih)
    intro hx
    have := List.of_mem_filter hx
    simp at this

/-- C1: a URL whose every navigation attempt fails with a retryable error (a
network/timeout navigation error, or an HTTP response with status in
`[500, 599]`) settles under `maxRetries = 3` to exactly the status `5xx` —
never `Other` — after exactly 4 attempts, with backoff delays of 1, 2 and 4
seconds (7000 ms total) before attempts 1, 2 and 3, and a note containing the
attempt count `4`; when every attempt is an HTTP 500 response the note is
`HTTP 500 after 4 attempts`, containing both `4` and `500`. -/
theorem claim1_retry_budget (url : String) (attempts : Nat → AttemptOutcome)
    (h : ∀ i, i ≤ 3 → retryableFail (attempts i)) :
    (checkUrlRun url attempts 3).result.status = .s5xx ∧
    (checkUrlRun url attempts 3).result.status ≠ .other ∧
    (checkUrlRun url attempts 3).attemptsMade = 4 ∧
    (checkUrlRun url attempts 3).delays = [1000, 2000, 4000] ∧
    (checkUrlRun url attempts 3).delays.sum = 7000 ∧
    (∃ note, (checkUrlRun url attempts 3).result.notes = some note ∧
      includesStr note "4" = true) ∧
    ((∀ i, i ≤ 3 → ∃ insp, attempts i = .nav (some 500) insp) →
      (checkUrlRun url attempts 3).result.notes = some "HTTP 500 after 4 attempts" ∧
      includesStr "HTTP 500 after 4 attempts" "4" = true ∧
      includesStr "HTTP 500 after 4 attempts" "500" = true) := by
  obtain ⟨le1, e1⟩ :=
    checkUrlGo_step url attempts 0 (by omega) (h 0 (by omega)) 3 none 0 []
  norm_num at e1
  obtain ⟨le2, e2⟩ :=
    checkUrlGo_step url attempts 1 (by omega) (h 1 (by omega)) 2 (some le1) 1 []
  norm_num [backoffDelayMs] at e2
  obtain ⟨le3, e3⟩ :=
    checkUrlGo_step url attempts 2 (by omega) (h 2 (by omega)) 1 (some le2) 2 [1000]
  norm_num [backoffDelayMs] at e3
  obtain ⟨note, errv, efin, hnote⟩ :=
    checkUrlGo_final url attempts (h 3 (by omega)) (some le3) 3 [1000, 2000]
  norm_num [backoffDelayMs] at efin
  have e0 : checkUrlRun url attempts 3 = checkUrlGo url 3 attempts 4 0 none 0 [] := rfl
  have E : checkUrlRun url attempts 3 =
      ⟨⟨url, .s5xx, some note, errv⟩, 4, [1000, 2000, 4000]⟩ := by
    rw [e0, e1, e2, e3, efin]
  refine ⟨by simp [E], by simp [E], by simp [E], by simp [E], by simp [E],
    ⟨note, by simp [E], hnote⟩, ?_⟩
  intro h500
  obtain ⟨insp3, hi3⟩ := h500 3 (by omega)
  have efin2 := checkUrlGo_final500 url attempts insp3 hi3 (some le3) 3 [1000, 2000]
  norm_num [backoffDelayMs] at efin2
  have E2 : checkUrlRun url attempts 3 =
      ⟨⟨url, .s5xx, some "HTTP 500 after 4 attempts", none⟩, 4, [1000, 2000, 4000]⟩ := by
    rw [e0, e1, e2, e3, efin2]
  exact ⟨by simp [E2], by decide, by decide⟩

/-- C1 witness: a URL whose four attempts all fail with
`net::ERR_CONNECTION_REFUSED` settles to `5xx` after 4 attempts with delays
of 1000, 2000 and 4000 ms. -/
theorem claim1_witness :
    (checkUrlRun "https://down.example"
      (fun _ => .thrown "net::ERR_CONNECTION_REFUSED") 3).result.status = .s5xx ∧
    (checkUrlRun "https://down.example"
      (fun _ => .thrown "net::ERR_CONNECTION_REFUSED") 3).attemptsMade = 4 ∧
    (checkUrlRun "https://down.example"
      (fun _ => .thrown "net::ERR_CONNECTION_REFUSED") 3).delays =
      [1000, 2000, 4000] := by
  have h := claim1_retry_budget "https://down.example"
    (fun _ => .thrown "net::ERR_CONNECTION_REFUSED")
    (fun i _ => show retryableFail (.thrown "net::ERR_CONNECTION_REFUSED") by decide)
  exact ⟨h.1, h.2.2.1, h.2.2.2.1⟩

/-- C2 (amended): a check whose navigation yields an HTTP 403 response settles
to `Broken` with note `HTTP 403` regardless of the rendered content; the code
has no substantial-content escape hatch for 403. -/
theorem claim2_http403_broken (url : String) (attempts : Nat → AttemptOutcome)
    (mr : Nat) (insp : Inspect) (h0 : attempts 0 = .nav (some 403) insp) :
    checkUrl url attempts mr = ⟨url, .broken, some "HTTP 403", none⟩ := by
  have e := checkUrlRun_nav_other url attempts mr 403 insp h0 (by omega) (by omega)
  have hdet : detectStatus (some 403) insp = ⟨.broken, some "HTTP 403"⟩ := rfl
  simp [checkUrl, e, hdet]

/-- C2 counterexample: a 403 response with a 2000-character product-listing
body (40 DOM elements) settles to `Broken`, not `Ok`, refuting the claimed
substantial-content rule. -/
theorem claim2_counterexample :
    bigDoc403.bodyText.length = 2000 ∧
    15 ≤ bigDoc403.elementCount ∧
    (checkUrl "https://shop.example"
      (fun _ => .nav (some 403) (.page bigDoc403)) 3).status = .broken ∧
    ¬ (checkUrl "https://shop.example"
      (fun _ => .nav (some 403) (.page bigDoc403)) 3).status = .ok := by
  refine ⟨?_, by decide, by rfl, by decide⟩
  show ((List.replicate 40 productLine.data).flatten).length = 2000
  rw [List.length_flatten]
  have h50 : productLine.data.length = 50 := rfl
  simp [List.map_replicate, h50]

/-- C2 witness: an HTTP 403 with an empty rendered document also settles to
`Broken` with note `HTTP 403`. -/
theorem claim2_witness :
    checkUrl "https://w.example" (fun _ => .nav (some 403) (.page emptyDoc)) 3 =
      ⟨"https://w.example", .broken, some "HTTP 403", none⟩ :=
  claim2_http403_broken "https://w.example"
    (fun _ => .nav (some 403) (.page emptyDoc)) 3 (.page emptyDoc) rfl

/-- C3 (amended): an HTTP 200 response with an empty body settles to `Parked`,
not `Broken`: the Parked test's minimal-content rule (trimmed body under 100
characters) fires before the Broken test's structural-emptiness rule is ever
consulted. -/
theorem claim3_empty200_parked (url : String) (attempts : Nat → AttemptOutcome)
    (mr : Nat) (d : RenderedDoc)
    (h0 : attempts 0 = .nav (some 200) (.page d)) (hb : d.bodyText = "") :
    checkUrl url attempts mr = ⟨url, .parked, some "Parked domain detected", none⟩ := by
  have hpark : isParkedPage d = true := isParkedPage_short (by rw [hb]; decide)
  have hdet : detectStatus (some 200) (.page d) =
      ⟨.parked, some "Parked domain detected"⟩ := by
    rw [detectStatus_noError _ (show noErrorStatus (some 200) from Or.inl (by omega)),
      analyzePage_parked hpark]
  have e := checkUrlRun_nav_other url attempts mr 200 (.page d) h0 (by omega) (by omega)
  simp [checkUrl, e, hdet]

/-- C3 counterexample: status 200 with a structurally empty document (empty
body, 0 elements) settles to `Parked`, not `Broken` as the claim states. -/
theorem claim3_counterexample :
    emptyDoc.elementCount = 0 ∧ emptyDoc.bodyText = "" ∧
    (checkUrl "https://empty.example"
      (fun _ => .nav (some 200) (.page emptyDoc)) 3).status = .parked ∧
    ¬ (checkUrl "https://empty.example"
      (fun _ => .nav (some 200) (.page emptyDoc)) 3).status = .broken :=
  ⟨rfl, rfl, rfl, by decide⟩

/-- C3 witness: the amended claim at the concrete empty document. -/
theorem claim3_witness :
    checkUrl "https://empty.example"
      (fun _ => .nav (some 200) (.page emptyDoc)) 3 =
      ⟨"https://empty.example", .parked, some "Parked domain detected", none⟩ :=
  claim3_empty200_parked "https://empty.example"
    (fun _ => .nav (some 200) (.page emptyDoc)) 3 emptyDoc rfl rfl

/-- C4: for every behaviour of the rendering engine, `checkUrl` returns a
`CheckResult` carrying exactly one of the six `WebsiteStatus` values (the
model is a total function, so no fault can propagate); and an uncaught fault
raised while classifying a loaded document whose response carries no 4xx/5xx
status yields status `Other` with the fault message inside the note. -/
theorem claim4_classification_total :
    (∀ (url : String) (attempts : Nat → AttemptOutcome) (mr : Nat),
      (checkUrl url attempts mr).status = .s5xx ∨
      (checkUrl url attempts mr).status = .notFound404 ∨
      (checkUrl url attempts mr).status = .parked ∨
      (checkUrl url attempts mr).status = .broken ∨
      (checkUrl url attempts mr).status = .ok ∨
      (checkUrl url attempts mr).status = .other) ∧
    (∀ (url : String) (attempts : Nat → AttemptOutcome) (mr : Nat)
      (response : Option Nat) (msg : String),
      attempts 0 = .nav response (.fault msg) → noErrorStatus response →
      (checkUrl url attempts mr).status = .other ∧
      (checkUrl url attempts mr).notes = some ("Analysis error: " ++ msg) ∧
      includesStr ("Analysis error: " ++ msg) msg = true) := by
  constructor
  · intro url attempts mr
    cases h : (checkUrl url attempts mr).status <;> simp
  · intro url attempts mr response msg h0 hresp
    have hdet : detectStatus response (.fault msg) =
        ⟨.other, some ("Analysis error: " ++ msg)⟩ := by
      rw [detectStatus_noError _ hresp, analyzePage_fault]
    cases response with
    | none =>
      have e := checkUrlRun_nav_none url attempts mr (.fault msg) h0
      exact ⟨by simp [checkUrl, e, hdet], by simp [checkUrl, e, hdet],
        includesStr_append_right _ (includesStr_self msg)⟩
    | some s =>
      have h' : s < 400 ∨ 600 ≤ s := hresp
      have e := checkUrlRun_nav_other url attempts mr s (.fault msg) h0 (by omega) (by omega)
      exact ⟨by simp [checkUrl, e, hdet], by simp [checkUrl, e, hdet],
        includesStr_append_right _ (includesStr_self msg)⟩

/-- C4 witness: a fault `boom` during classification of a loaded 200 page
yields `Other` with the fault message in the note. -/
theorem claim4_witness :
    (checkUrl "https://x.example"
      (fun _ => .nav (some 200) (.fault "boom")) 3).status = .other ∧
    (checkUrl "https://x.example"
      (fun _ => .nav (some 200) (.fault "boom")) 3).notes =
      some "Analysis error: boom" := by
  have h := claim4_classification_total.2 "https://x.example"
    (fun _ => .nav (some 200) (.fault "boom")) 3 (some 200) "boom" rfl (by decide)
  exact ⟨h.1, h.2.1⟩

/-- C5 (amended): a rendered document whose body contains `domain for sale`
(case-insensitively), checked with a response carrying no 4xx or 5xx status
(absent, or status outside `[400, 600)`), settles to `Parked` even when the
document also matches Broken-test phrases — the Parked test is evaluated
strictly before the Broken test.  (The claim as stated excluded only 403/404:
any other 4xx or a 5xx status also pre-empts the Parked verdict.) -/
theorem claim5_parked_precedence (url : String) (attempts : Nat → AttemptOutcome)
    (mr : Nat) (d : RenderedDoc) (response : Option Nat)
    (hresp : noErrorStatus response)
    (hsale : includesStr (toLowerStr d.bodyText) "domain for sale" = true)
    (h0 : attempts 0 = .nav response (.page d)) :
    checkUrl url attempts mr = ⟨url, .parked, some "Parked domain detected", none⟩ := by
  have hpark := isParkedPage_forSale hsale
  have hdet : detectStatus response (.page d) =
      ⟨.parked, some "Parked domain detected"⟩ := by
    rw [detectStatus_noError _ hresp, analyzePage_parked hpark]
  cases response with
  | none =>
    have e := checkUrlRun_nav_none url attempts mr (.page d) h0
    simp [checkUrl, e, hdet]
  | some s =>
    have h' : s < 400 ∨ 600 ≤ s := hresp
    have e := checkUrlRun_nav_other url attempts mr s (.page d) h0 (by omega) (by omega)
    simp [checkUrl, e, hdet]

/-- C5 counterexample: a document containing `domain for sale` checked with
HTTP status 400 (neither 403 nor 404, so allowed by the claim as stated)
settles to `Broken`, not `Parked`: the HTTP-status rules pre-empt the
content tests. -/
theorem claim5_counterexample :
    includesStr (toLowerStr forSaleDoc.bodyText) "domain for sale" = true ∧
    isBrokenPage forSaleDoc = true ∧
    ¬ (400 : Nat) = 403 ∧ ¬ (400 : Nat) = 404 ∧
    (checkUrl "https://sale.example"
      (fun _ => .nav (some 400) (.page forSaleDoc)) 3).status = .broken ∧
    ¬ (checkUrl "https://sale.example"
      (fun _ => .nav (some 400) (.page forSaleDoc)) 3).status = .parked :=
  ⟨by rfl, by rfl, by decide, by decide, by rfl, by decide⟩

/-- C5 witness: the amended claim at a concrete for-sale document that also
matches the Broken phrase `under construction`, with HTTP status 200. -/
theorem claim5_witness :
    checkUrl "https://sale.example"
      (fun _ => .nav (some 200) (.page forSaleDoc)) 3 =
      ⟨"https://sale.example", .parked, some "Parked domain detected", none⟩ :=
  claim5_parked_precedence "https://sale.example"
    (fun _ => .nav (some 200) (.page forSaleDoc)) 3 forSaleDoc (some 200)
    (by decide) (by rfl) rfl

/-- C6: a check whose navigation yields an HTTP 404 response settles to `404`
with note `HTTP 404`, regardless of the rendered document's content. -/
theorem claim6_http404 (url : String) (attempts : Nat → AttemptOutcome)
    (mr : Nat) (insp : Inspect) (h0 : attempts 0 = .nav (some 404) insp) :
    checkUrl url attempts mr = ⟨url, .notFound404, some "HTTP 404", none⟩ := by
  have e := checkUrlRun_nav_404 url attempts mr insp h0
  simp [checkUrl, e]

/-- C6 witness: an HTTP 404 with body `Page Not Found` settles to `404` with
note `HTTP 404`. -/
theorem claim6_witness :
    checkUrl "https://gone.example"
      (fun _ => .nav (some 404) (.page ⟨"Page Not Found", "404", 5, "Page Not Found"⟩)) 3 =
      ⟨"https://gone.example", .notFound404, some "HTTP 404", none⟩ :=
  claim6_http404 "https://gone.example"
    (fun _ => .nav (some 404) (.page ⟨"Page Not Found", "404", 5, "Page Not Found"⟩)) 3
    (.page ⟨"Page Not Found", "404", 5, "Page Not Found"⟩) rfl

/-- C7 (amended): for every input whose trimmed form is empty, `normalizeUrl`
fails with the empty-input error; for every other input it returns a string
that starts with `http://` or `https://` up to ASCII case (the code's scheme
test is case-insensitive and preserves the input's casing, so a literal
lowercase prefix is not guaranteed). -/
theorem claim7_normalize_scheme (s : String) :
    (jsTrim s = "" → normalizeUrl s = .error "Empty domain") ∧
    (jsTrim s ≠ "" → ∃ out, normalizeUrl s = .ok out ∧
      (startsWithStr (toLowerStr out) "http://" = true ∨
       startsWithStr (toLowerStr out) "https://" = true)) := by
  constructor
  · intro h
    simp only [normalizeUrl, if_pos h]
  · intro h
    refine ⟨_, normalizeUrl_eq_ok h, ?_⟩
    by_cases hs : hasHttpScheme (stripSlashes (jsTrim (jsTrim s))) = true
    · rw [if_pos hs]
      rw [hasHttpScheme, Bool.or_eq_true] at hs
      exact hs
    · rw [if_neg hs]
      exact Or.inr (lower_startsWith_https _)

/-- C7 counterexample: `normalizeUrl "HTTP://example.com"` returns
`HTTP://example.com`, which starts with neither the literal prefix `http://`
nor `https://`, refuting the claim's literal-prefix guarantee. -/
theorem claim7_counterexample :
    normalizeUrl "HTTP://example.com" = .ok "HTTP://example.com" ∧
    startsWithStr "HTTP://example.com" "http://" = false ∧
    startsWithStr "HTTP://example.com" "https://" = false :=
  ⟨rfl, rfl, rfl⟩

/-- C7 witness: the amended claim at `example.com`. -/
theorem claim7_witness :
    ∃ out, normalizeUrl "example.com" = .ok out ∧
      (startsWithStr (toLowerStr out) "http://" = true ∨
       startsWithStr (toLowerStr out) "https://" = true) :=
  (claim7_normalize_scheme "example.com").2 (by decide)

/-- C8: CSV deduplication keeps exactly the first occurrence of each
normalized URL in input order (it equals first-occurrence deduplication of
the per-row normalization results), the resulting list never repeats an
entry, and the input `["example.com", "https://example.com", "EXAMPLE.com/"]`
yields the 2-element list `["https://example.com", "https://EXAMPLE.com"]`,
fewer than 3 entries. -/
theorem claim8_dedup :
    (∀ rows : List String,
      readUrlsFromCsv rows = dedupKeepFirst (rows.filterMap rowNormalized)) ∧
    (∀ rows : List String, (readUrlsFromCsv rows).Nodup) ∧
    readUrlsFromCsv ["example.com", "https://example.com", "EXAMPLE.com/"] =
      ["https://example.com", "https://EXAMPLE.com"] ∧
    (readUrlsFromCsv ["example.com", "https://example.com", "EXAMPLE.com/"]).length
      < 3 := by
  refine ⟨readUrlsFromCsv_eq_dedup, ?_, by rfl, by decide⟩
  intro rows
  rw [readUrlsFromCsv_eq_dedup]
  exact dedupKeepFirst_nodup _

/-- C9: a rendered document whose trimmed body text is shorter than 100
characters is reported parked by `isParkedPage` regardless of its title,
body phrases or element count, so any such page checked with a response
carrying no 4xx/5xx status is classified `Parked`, never `Broken` or `Ok`. -/
theorem claim9_short_body_parked :
    (∀ d : RenderedDoc, (jsTrim d.bodyText).length < 100 → isParkedPage d = true) ∧
    (∀ (d : RenderedDoc) (response : Option Nat),
      (jsTrim d.bodyText).length < 100 → noErrorStatus response →
      detectStatus response (.page d) = ⟨.parked, some "Parked domain detected"⟩) := by
  refine ⟨fun d h => isParkedPage_short h, fun d response h hresp => ?_⟩
  rw [detectStatus_noError _ hresp, analyzePage_parked (isParkedPage_short h)]

/-- C9 witness: a 2-character body with HTTP 200 is classified `Parked`. -/
theorem claim9_witness :
    detectStatus (some 200) (.page ⟨"hi", "a title", 30, "hi"⟩) =
      ⟨.parked, some "Parked domain detected"⟩ :=
  claim9_short_body_parked.2 ⟨"hi", "a title", 30, "hi"⟩ (some 200)
    (by decide) (by decide)

/-- C10 (amended): `normalizeUrl` never throws on its own output, and is
idempotent on every input whose output is left unchanged by trimming and by
slash-stripping (in particular whenever the output ends in neither whitespace
nor a slash); full idempotence fails because slash-stripping can expose
trailing whitespace (or the bare scheme's slashes) that the second pass then
alters. -/
theorem claim10_idempotent_conditional (s out : String)
    (h : normalizeUrl s = .ok out) :
    (∃ out2, normalizeUrl out = .ok out2) ∧
    (jsTrim out = out → stripSlashes out = out → normalizeUrl out = .ok out) := by
  by_cases he : jsTrim s = ""
  · rw [normalizeUrl, if_pos he] at h
    exact Except.noConfusion h
  · have hout := normalizeUrl_eq_ok he
    rw [h] at hout
    have hout' : out = (if hasHttpScheme (stripSlashes (jsTrim (jsTrim s))) = true
        then stripSlashes (jsTrim (jsTrim s))
        else "https://" ++ stripSlashes (jsTrim (jsTrim s))) :=
      Except.ok.inj hout
    have hhead : ∃ c rest, out.data = c :: rest ∧ isWsCh c = false := by
      by_cases hs : hasHttpScheme (stripSlashes (jsTrim (jsTrim s))) = true
      · rw [hout', if_pos hs]
        exact hasHttpScheme_head hs
      · rw [hout', if_neg hs]
        obtain ⟨rest, hr⟩ := prepend_https_head (stripSlashes (jsTrim (jsTrim s)))
        exact ⟨'h', rest, hr, by decide⟩
    obtain ⟨c, rest, hcr, hcw⟩ := hhead
    have htrim : jsTrim out ≠ "" := jsTrim_ne_empty hcr hcw
    have hscheme : hasHttpScheme out = true := by
      by_cases hs : hasHttpScheme (stripSlashes (jsTrim (jsTrim s))) = true
      · rw [hout', if_pos hs]
        exact hs
      · rw [hout', if_neg hs]
        exact hasHttpScheme_prepend _
    refine ⟨normalizeUrl_isOk htrim, fun h1 h2 => ?_⟩
    rw [normalizeUrl_eq_ok htrim, h1, h1, h2, if_pos hscheme]

/-- C10 counterexample: `normalizeUrl "foo /"` yields `https://foo ` (slash
stripping exposed a trailing space), and a second application yields
`https://foo`, so `normalizeUrl` is not idempotent. -/
theorem claim10_counterexample :
    normalizeUrl "foo /" = .ok "https://foo " ∧
    normalizeUrl "https://foo " = .ok "https://foo" ∧
    ("https://foo " : String) ≠ "https://foo" :=
  ⟨rfl, rfl, by decide⟩

/-- C10 witness: the amended claim at `example.com`, whose output
`https://example.com` is a fixed point. -/
theorem claim10_witness :
    (∃ out2, normalizeUrl "https://example.com" = .ok out2) ∧
    normalizeUrl "https://example.com" = .ok "https://example.com" := by
  have h := claim10_idempotent_conditional "example.com" "https://example.com" rfl
  exact ⟨h.1, h.2 rfl rfl⟩

end UrlChecker
